import Mathlib

/-!
Verification development for `tools/miniuss/miniuss.py`: a simulated USS
exposing TCL4 endpoints.  Request handlers are shallowly embedded as pure
Lean functions; the grid client and the JWT library are external
collaborators, modelled as explicit oracle parameters; raised
`flask.abort` / returned `_error` responses become the `httpError`
constructor of `HandlerOutcome`, and unhandled Python exceptions (such as
an `IndexError` from an unguarded `[...][0]`) become `crash`.
-/

namespace MiniUss

/-- Flat JSON payloads as ordered association lists of string fields.
Only string-valued field access (`dict.get`) is performed by the code on
these payloads. -/
abbrev Payload := List (String × String)

/-- `payload.get(k)` returning `none` when the key is absent. -/
def Payload.get? (p : Payload) (k : String) : Option String :=
  (p.find? (fun kv => kv.1 == k)).map (fun kv => kv.2)

/-- `payload.get(k, d)`: field lookup with a default. -/
def Payload.getD (p : Payload) (k d : String) : String :=
  (Payload.get? p k).getD d

/-- Python `dict` lookup on an insertion-ordered association list. -/
def dictGet? {α : Type} (d : List (String × α)) (k : String) : Option α :=
  (d.find? (fun kv => kv.1 == k)).map (fun kv => kv.2)

/-- Python `dict` assignment `d[k] = v`: updates the existing slot in
place (keys are unique, so the first occurrence is the slot), otherwise
appends (insertion-order semantics of Python ≥ 3.7). -/
def dictUpsert {α : Type} : List (String × α) → String → α →
    List (String × α)
  | [], k, v => [(k, v)]
  | kv :: tl, k, v =>
    if kv.1 == k then (k, v) :: tl else kv :: dictUpsert tl k v

/-- Python `del d[k]`. -/
def dictDel {α : Type} (d : List (String × α)) (k : String) :
    List (String × α) :=
  d.filter (fun kv => kv.1 != k)

/-- A `requests.HTTPError` from the grid: the response's status code and
its body content. -/
structure HttpErr where
  status : Nat
  content : String
deriving DecidableEq, Repr

/-- Models Python `str(e)` for a `requests.HTTPError`: a textual rendering
of the failed response (status and body). -/
def errStr (e : HttpErr) : String :=
  toString e.status ++ " Error: " ++ e.content

/-- An operator (participant) entry as returned in the grid snapshot.
The handler reads exactly these three fields. -/
structure Operator where
  uss : String
  uss_baseurl : String
  announcement_level : String
deriving DecidableEq, Repr

/-- A UVR as stored in the grid and in the local cache: its identifying
`message_id` plus the remaining (uninterpreted) payload fields. -/
structure Uvr where
  message_id : String
  rest : Payload
deriving DecidableEq, Repr

/-- An operation as stored in the local registry: its identifying `gufi`
plus the remaining (uninterpreted) payload fields. -/
structure Operation where
  gufi : String
  payload : Payload
deriving DecidableEq, Repr

/-- The grid's response snapshot to a UVR upsert:
`grid_contents['data']['operators']` and `grid_contents['data']['uvrs']`. -/
structure GridSnapshot where
  operators : List Operator
  uvrs : List Uvr
deriving DecidableEq, Repr

/-- A latitude/longitude pair handed to `interuss_platform.Coord`. -/
structure Coord where
  lat : Int
  lng : Int
deriving DecidableEq, Repr

/-- One entry of the notification log, as built by `_log_request_body`. -/
structure NotificationEntry where
  received : String
  source : String
  content : Payload
  uss : String
  action : Option String
deriving DecidableEq, Repr

/-- The notification log: per-key ordered histories. -/
abbrev NotifLogs := List (String × List NotificationEntry)

/-- The claims carried by a decoded access token; the code reads only
`claims['scope']`. -/
structure TokenClaims where
  scope : List String
deriving DecidableEq, Repr

/-- Outcome of `jwt.decode(token, public_key, algorithms='RS256')`. -/
inductive JwtResult where
  | ok (claims : TokenClaims)
  | expiredSignature
  | decodeError
deriving DecidableEq, Repr

/-- One call made to the grid client, recorded as a trace event. -/
inductive GridCall where
  | upsertOperator (ops : List Operation)
  | insertObserver (cell : String)
  | upsertUvr (uvr : Payload)
  | removeUvr (uvr : Uvr)
  | removeOperatorByCell (cell : String)
  | getOperatorsByArea (area : List Coord)
deriving DecidableEq, Repr

/-- Result of one request handler: a successful value, a structured HTTP
failure (`_error` or `flask.abort`), or an unhandled Python exception. -/
inductive HandlerOutcome (α : Type) where
  | ok (value : α)
  | httpError (status : Nat) (msg : String)
  | crash
deriving DecidableEq, Repr

/-- Python substring containment `needle in hay`. -/
def strIn (needle hay : String) : Bool :=
  decide (needle.data <:+: hay.data)

/-- `s.startswith(p)`, stated on the character lists. -/
def strStartsWith (s p : String) : Bool :=
  decide (p.data <+: s.data)

/-- `s.endswith(p)`, stated on the character lists. -/
def strEndsWith (s p : String) : Bool :=
  decide (p.data <:+ s.data)

/-- `os.path.join(a, b)` for the forward-slash paths used here: `b`
starting with a slash resets the path; otherwise a separator is inserted
unless `a` is empty or already ends with one. -/
def osPathJoin2 (a b : String) : String :=
  if strStartsWith b "/" then b
  else if a == "" || strEndsWith a "/" then a ++ b
  else a ++ "/" ++ b

/-- `os.path.join(a, b, c)`. -/
def osPathJoin3 (a b c : String) : String :=
  osPathJoin2 (osPathJoin2 a b) c

/-- One `\d+/` step of the slippy-cell pattern: consume a nonempty run of
digits followed by a literal slash, returning the remainder. -/
def digitsSlash (cs : List Char) : Option (List Char) :=
  if (cs.takeWhile (fun c => c.isDigit)).isEmpty then none
  else
    match cs.dropWhile (fun c => c.isDigit) with
    | c :: tl => if c = '/' then some tl else none
    | [] => none

/-- `re.match(r'\d+/\d+/\d+', s)` viewed as a Bool: the pattern is
anchored at the start of the string but not at its end, so it succeeds on
any string whose prefix has the form digits/digits/digits. -/
def slippyCellMatch (s : String) : Bool :=
  Option.elim ((digitsSlash s.data).bind digitsSlash) false
    (fun r2 => !(r2.takeWhile (fun c => c.isDigit)).isEmpty)

/-- Python truthiness of an optional string (`if action:`): `None` and the
empty string are falsy. -/
def pyTruthy (s : Option String) : Bool :=
  match s with
  | none => false
  | some v => !(v == "")

/-! ## Access control (`_validate_control`, `_validate_access_token`) -/

/-- `_validate_control()`: the `Authorization` header must be present and
exactly equal the configured `control_authorization` secret. -/
def validate_control (authHeader : Option String)
    (control_authorization : String) : Except HttpErr Unit :=
  match authHeader with
  | none =>
    Except.error ⟨401, "Authorization header was not included in request"⟩
  | some v =>
    if v == control_authorization then Except.ok ()
    else Except.error ⟨403, "Not authorized to access this control endpoint"⟩

/-- Token extraction of `_validate_access_token`: the `Authorization`
header takes precedence (every occurrence of `Bearer ` stripped), then
the legacy `access_token` header. -/
def extractToken (authHeader accessTokenHeader : Option String) :
    Option String :=
  match authHeader with
  | some a => some (a.replace "Bearer " "")
  | none => accessTokenHeader

/-- `_validate_access_token(allowed_scopes)`: extract the token, decode
it, and — only when a scope set is required — demand a nonempty
intersection with the token's scopes. `decode` is the oracle for
`jwt.decode` against the configured key. -/
def validate_access_token (decode : String → JwtResult)
    (authHeader accessTokenHeader : Option String)
    (allowed_scopes : Option (List String)) : Except HttpErr Unit :=
  match extractToken authHeader accessTokenHeader with
  | none => Except.error ⟨401, "Access token was not included in request"⟩
  | some token =>
    match decode token with
    | JwtResult.expiredSignature =>
      Except.error ⟨401, "Access token is invalid: token has expired."⟩
    | JwtResult.decodeError =>
      Except.error ⟨400, "Access token is invalid: token cannot be decoded."⟩
    | JwtResult.ok claims =>
      match allowed_scopes with
      | none => Except.ok ()
      | some allowed =>
        if claims.scope.any (fun s => allowed.contains s) then Except.ok ()
        else
          Except.error ⟨403,
            "Scopes included in access token do not grant access to this resource"⟩

/-! ## Notification log (`_log_request_body`, `/notifications`) -/

/-- `_log_request_body(key, source, action)`: build the entry from the
request body (`uss` from the body's `uss_name` field, defaulting to
`'???'`; the `action` field only present when the action argument is
truthy) and append it to the history under `key`. `now` is the
`datetime.now().isoformat()` timestamp. Returns the updated log and the
entry. -/
def log_request_body (now : String) (key source : String) (body : Payload)
    (action : Option String) (logs : NotifLogs) :
    NotifLogs × NotificationEntry :=
  let entry : NotificationEntry :=
    { received := now
      source := source
      content := body
      uss := Payload.getD body "uss_name" "???"
      action := if pyTruthy action then action else none }
  (dictUpsert logs key ((dictGet? logs key).getD [] ++ [entry]), entry)

/-- `GET /notifications/<notification_key>` (`get_notifications`):
control-gated lookup of one key's history. -/
def get_notifications (authHeader : Option String)
    (control_authorization : String) (logs : NotifLogs)
    (notification_key : String) :
    HandlerOutcome (List NotificationEntry) :=
  match validate_control authHeader control_authorization with
  | Except.error e => HandlerOutcome.httpError e.status e.content
  | Except.ok _ =>
    match dictGet? logs notification_key with
    | some history => HandlerOutcome.ok history
    | none =>
      HandlerOutcome.httpError 404 ("Key " ++ notification_key ++ " not found")

/-- A notification entry with its raw `content` payload redacted, for the
`exclude_content` view of the bulk GET. -/
structure NotificationEntryNC where
  received : String
  source : String
  uss : String
  action : Option String
deriving DecidableEq, Repr

/-- Drop the `content` field of an entry. -/
def NotificationEntry.noContent (e : NotificationEntry) :
    NotificationEntryNC :=
  { received := e.received, source := e.source, uss := e.uss,
    action := e.action }

/-- The three possible response shapes of `GET /notifications`. -/
inductive NotifView where
  | compact (v : List (String × List String))
  | detailed (v : NotifLogs)
  | detailedNC (v : List (String × List NotificationEntryNC))
deriving DecidableEq, Repr

/-- `GET /notifications` (`del_notifications`, GET branch): control-gated;
either the compact `source + ' ' + received` view, or the detailed view
optionally filtered to one `uss` and optionally stripped of `content`. -/
def get_notifications_bulk (authHeader : Option String)
    (control_authorization : String) (logs : NotifLogs)
    (details : Bool) (ussFilter : Option String) (excludeContent : Bool) :
    HandlerOutcome NotifView :=
  match validate_control authHeader control_authorization with
  | Except.error e => HandlerOutcome.httpError e.status e.content
  | Except.ok _ =>
    if details then
      let logs2 :=
        match ussFilter with
        | some f =>
          logs.map (fun kv => (kv.1, kv.2.filter (fun e => e.uss == f)))
        | none => logs
      if excludeContent then
        HandlerOutcome.ok (NotifView.detailedNC
          (logs2.map (fun kv => (kv.1, kv.2.map NotificationEntry.noContent))))
      else
        HandlerOutcome.ok (NotifView.detailed logs2)
    else
      HandlerOutcome.ok (NotifView.compact
        (logs.map (fun kv =>
          (kv.1, kv.2.map (fun e => e.source ++ " " ++ e.received)))))

/-- `DELETE /notifications` (`del_notifications`, DELETE branch):
control-gated; clears the whole log and reports
`'Deleted %d notification keys' % len(notification_logs)` — the number of
*keys*, not entries. Returns the response and the new log. -/
def del_notifications_delete (authHeader : Option String)
    (control_authorization : String) (logs : NotifLogs) :
    HandlerOutcome String × NotifLogs :=
  match validate_control authHeader control_authorization with
  | Except.error e => (HandlerOutcome.httpError e.status e.content, logs)
  | Except.ok _ =>
    (HandlerOutcome.ok
      ("Deleted " ++ toString logs.length ++ " notification keys"), [])

/-! ## Grid sync (`_update_operations`) -/

/-- The `for slippy_cell in always_listen` loop of `_update_operations`:
insert an observer entry per cell, aborting with the grid's status on the
first `HTTPError`. Returns the outcome and the trace of grid calls
attempted. -/
def insertObservers (insertObserver : String → Except HttpErr Unit) :
    List String → Except HttpErr Unit × List GridCall
  | [] => (Except.ok (), [])
  | c :: rest =>
    match insertObserver c with
    | Except.error e =>
      (Except.error ⟨e.status,
        "Error inserting observer Operator into cell " ++ c ++ ": " ++
          e.content⟩,
       [GridCall.insertObserver c])
    | Except.ok _ =>
      let (r, t) := insertObservers insertObserver rest
      (r, GridCall.insertObserver c :: t)

/-- `_update_operations()`: replace this USS's operator entry in the grid
with the full current operation set (`operations.values()`), then
re-insert an observer entry for every always-listen cell. A grid
`HTTPError` aborts the request with the grid's own status code and a
message carrying the grid response's content. -/
def update_operations (upsertOperator : List Operation → Except HttpErr Unit)
    (insertObserver : String → Except HttpErr Unit)
    (operations : List (String × Operation)) (always_listen : List String) :
    Except HttpErr Unit × List GridCall :=
  let vals := operations.map (fun kv => kv.2)
  match upsertOperator vals with
  | Except.error e =>
    (Except.error ⟨e.status,
      "Error updating InterUSS Platform Operator entry: " ++ e.content⟩,
     [GridCall.upsertOperator vals])
  | Except.ok _ =>
    let (r, t) := insertObservers insertObserver always_listen
    (r, GridCall.upsertOperator vals :: t)

/-! ## Control and status endpoints -/

/-- `GET /` and `GET /status` (`status_endpoint`): no credential check of
any kind; reports the operation GUFIs and this USS's base URL. The
`authHeader` and secret are taken but never consulted. -/
def status_endpoint (_authHeader : Option String)
    (_control_authorization : String)
    (operations : List (String × Operation)) (uss_baseurl : String) :
    HandlerOutcome (List String × String) :=
  HandlerOutcome.ok (operations.map (fun kv => kv.1), uss_baseurl)

/-- `GET /client/alwayslisten` (`alwayslisten_endpoint`, GET branch): no
credential check; returns the current cell list. -/
def alwaysListenGet (_authHeader : Option String)
    (_control_authorization : String) (always_listen : List String) :
    HandlerOutcome (List String) :=
  HandlerOutcome.ok always_listen

/-- `PUT /client/alwayslisten` (`alwayslisten_endpoint`, PUT branch):
control-gated; every cell of the request list must match the slippy
pattern (first offender → 400, before any grid call); then the list is
installed and a grid sync runs. Returns the outcome, the resulting
`always_listen` list and the grid-call trace. -/
def alwaysListenPut (authHeader : Option String)
    (control_authorization : String)
    (upsertOperator : List Operation → Except HttpErr Unit)
    (insertObserver : String → Except HttpErr Unit)
    (operations : List (String × Operation)) (always_listen : List String)
    (cells : List String) :
    HandlerOutcome Unit × List String × List GridCall :=
  match validate_control authHeader control_authorization with
  | Except.error e =>
    (HandlerOutcome.httpError e.status e.content, always_listen, [])
  | Except.ok _ =>
    match cells.find? (fun c => !slippyCellMatch c) with
    | some bad =>
      (HandlerOutcome.httpError 400 ("Invalid slippy cell: " ++ bad),
       always_listen, [])
    | none =>
      match update_operations upsertOperator insertObserver operations cells with
      | (Except.error e, t) =>
        (HandlerOutcome.httpError e.status e.content, cells, t)
      | (Except.ok _, t) => (HandlerOutcome.ok (), cells, t)

/-- The per-cell loop of `operator_entries_endpoint`: validate each cell
*immediately before* its own grid call, so an invalid cell later in the
list is only rejected after the earlier cells' grid calls have been made.
`removeOperatorByCell` returns the grid response's status code and body
(no exception path is handled here). -/
def operatorEntriesLoop (removeOperatorByCell : String → Nat × String) :
    List String →
      HandlerOutcome (List (String × Nat × String)) × List GridCall
  | [] => (HandlerOutcome.ok [], [])
  | c :: rest =>
    if !slippyCellMatch c then
      (HandlerOutcome.httpError 400 ("Invalid slippy cell: " ++ c), [])
    else
      let r := removeOperatorByCell c
      match operatorEntriesLoop removeOperatorByCell rest with
      | (HandlerOutcome.ok m, t) =>
        (HandlerOutcome.ok ((c, r) :: m), GridCall.removeOperatorByCell c :: t)
      | (o, t) => (o, GridCall.removeOperatorByCell c :: t)

/-- `DELETE /client/operator_entries` (`operator_entries_endpoint`):
control-gated bulk removal of operator entries by cell. -/
def operatorEntriesDelete (authHeader : Option String)
    (control_authorization : String)
    (removeOperatorByCell : String → Nat × String) (cells : List String) :
    HandlerOutcome (List (String × Nat × String)) × List GridCall :=
  match validate_control authHeader control_authorization with
  | Except.error e => (HandlerOutcome.httpError e.status e.content, [])
  | Except.ok _ => operatorEntriesLoop removeOperatorByCell cells

/-- `GET /client/operation/<gufi>` (`client_operation_endpoint`, GET
branch): no credential check; plain registry lookup. -/
def clientOperationGet (_authHeader : Option String)
    (_control_authorization : String)
    (operations : List (String × Operation)) (gufi : String) :
    HandlerOutcome Operation :=
  match dictGet? operations gufi with
  | some op => HandlerOutcome.ok op
  | none => HandlerOutcome.httpError 404 ""

/-- `PUT /client/operation/<gufi>` (`client_operation_endpoint`, PUT
branch): control-gated; store the request operation under its own `gufi`
field, then run the grid sync. The local write is kept even when the sync
fails. Returns the outcome, the resulting registry and the grid-call
trace. -/
def clientOperationPut (authHeader : Option String)
    (control_authorization : String)
    (upsertOperator : List Operation → Except HttpErr Unit)
    (insertObserver : String → Except HttpErr Unit)
    (operations : List (String × Operation)) (always_listen : List String)
    (operation : Operation) :
    HandlerOutcome Operation × List (String × Operation) × List GridCall :=
  match validate_control authHeader control_authorization with
  | Except.error e =>
    (HandlerOutcome.httpError e.status e.content, operations, [])
  | Except.ok _ =>
    let ops2 := dictUpsert operations operation.gufi operation
    match update_operations upsertOperator insertObserver ops2 always_listen with
    | (Except.error e, t) =>
      (HandlerOutcome.httpError e.status e.content, ops2, t)
    | (Except.ok _, t) => (HandlerOutcome.ok operation, ops2, t)

/-- `DELETE /client/operation/<gufi>` (`client_operation_endpoint`,
DELETE branch): control-gated; unknown GUFI → 404 with no grid call,
otherwise remove and run the grid sync. -/
def clientOperationDelete (authHeader : Option String)
    (control_authorization : String)
    (upsertOperator : List Operation → Except HttpErr Unit)
    (insertObserver : String → Except HttpErr Unit)
    (operations : List (String × Operation)) (always_listen : List String)
    (gufi : String) :
    HandlerOutcome Unit × List (String × Operation) × List GridCall :=
  match validate_control authHeader control_authorization with
  | Except.error e =>
    (HandlerOutcome.httpError e.status e.content, operations, [])
  | Except.ok _ =>
    match dictGet? operations gufi with
    | none =>
      (HandlerOutcome.httpError 404 ("GUFI " ++ gufi ++ " not found"),
       operations, [])
    | some _ =>
      let ops2 := dictDel operations gufi
      match update_operations upsertOperator insertObserver ops2 always_listen with
      | (Except.error e, t) =>
        (HandlerOutcome.httpError e.status e.content, ops2, t)
      | (Except.ok _, t) => (HandlerOutcome.ok (), ops2, t)

/-! ## UVR endpoints (`client_uvr_endpoint`) -/

/-- `GET /client/uvr/<message_id>` (`client_uvr_endpoint`, GET branch):
no credential check; plain cache lookup. -/
def clientUvrGet (_authHeader : Option String)
    (_control_authorization : String) (uvrCache : List (String × Uvr))
    (message_id : String) : HandlerOutcome Uvr :=
  match dictGet? uvrCache message_id with
  | some u => HandlerOutcome.ok u
  | none => HandlerOutcome.httpError 404 ""

/-- The peers actually notified by the UVR publish loop: the snapshot's
operators with `announcement_level == 'ALL'`, minus those whose
constructed notification URL *contains this USS's base URL as a
substring* (`grid_client.uss_baseurl in url`). -/
def uvrNotifyTargets (uss_baseurl : String) (message_id : String)
    (operators : List Operator) : List Operator :=
  (operators.filter (fun op => op.announcement_level == "ALL")).filter
    (fun op =>
      !strIn uss_baseurl (osPathJoin3 op.uss_baseurl "uvrs" message_id))

/-- The notification set as the *specification sentence* words it: the
`ALL`-level participants of the snapshot minus this participant itself,
self detected by comparing the candidate's base URL with this
participant's own base URL. Stated only to be compared against
`uvrNotifyTargets`, which is what the code computes. -/
def uvrNotifySetClaim (uss_baseurl : String) (operators : List Operator) :
    List Operator :=
  (operators.filter (fun op => op.announcement_level == "ALL")).filter
    (fun op => !(op.uss_baseurl == uss_baseurl))

/-- Successful response of the UVR publish: the grid's canonical UVR and
the per-peer notification attempts in loop order (each attempt is the
operator together with the status code and body of the peer's reply;
the JSON response keys them by `op['uss']`). -/
structure UvrPutOk where
  uvr : Uvr
  attempts : List (Operator × Nat × String)
deriving DecidableEq, Repr

/-- `PUT /client/uvr/<message_id>` (`client_uvr_endpoint`, PUT branch):
control-gated. Upsert the request UVR into the grid (an `HTTPError`
propagates the grid's status and `str(e)`); select element `[0]` of the
snapshot's UVRs filtered to `message_id` — an empty filter crashes with
an unhandled `IndexError`; cache the selected UVR; then attempt one
notification PUT per target peer (`uvrNotifyTargets`). `notifyPut` is the
oracle for `requests.put` at a peer URL. Returns the outcome, the
resulting cache and the grid-call trace. -/
def clientUvrPut (authHeader : Option String)
    (control_authorization : String)
    (upsertUvr : Payload → Except HttpErr GridSnapshot)
    (notifyPut : String → Nat × String) (uss_baseurl : String)
    (uvrCache : List (String × Uvr)) (message_id : String)
    (reqUvr : Payload) :
    HandlerOutcome UvrPutOk × List (String × Uvr) × List GridCall :=
  match validate_control authHeader control_authorization with
  | Except.error e =>
    (HandlerOutcome.httpError e.status e.content, uvrCache, [])
  | Except.ok _ =>
    match upsertUvr reqUvr with
    | Except.error e =>
      (HandlerOutcome.httpError e.status (errStr e), uvrCache,
       [GridCall.upsertUvr reqUvr])
    | Except.ok snapshot =>
      match (snapshot.uvrs.filter (fun u => u.message_id == message_id)).head? with
      | none => (HandlerOutcome.crash, uvrCache, [GridCall.upsertUvr reqUvr])
      | some u =>
        let cache2 := dictUpsert uvrCache u.message_id u
        let targets := uvrNotifyTargets uss_baseurl u.message_id snapshot.operators
        let attempts := targets.map (fun op =>
          (op, notifyPut (osPathJoin3 op.uss_baseurl "uvrs" u.message_id)))
        (HandlerOutcome.ok ⟨u, attempts⟩, cache2, [GridCall.upsertUvr reqUvr])

/-- The deletion request body's `geography.coordinates` rings; each point
is a `[longitude, latitude]` pair. -/
structure UvrDeleteBody where
  rings : List (List (Int × Int))
deriving DecidableEq, Repr

/-- `DELETE /client/uvr/<message_id>` (`client_uvr_endpoint`, DELETE
branch): control-gated. Cache hit: withdraw the cached representation
from the grid, dropping the cache entry only after the grid call
succeeds (a grid `HTTPError` propagates its status and `str(e)`, cache
untouched). Cache miss: take ring `[0]` of the request body's geography
(empty rings crash), query the grid by that area (points swapped to
`Coord(lat, lng)`), filter the returned UVRs to `message_id`; no match →
404, else withdraw the first match. -/
def clientUvrDelete (authHeader : Option String)
    (control_authorization : String)
    (removeUvr : Uvr → Except HttpErr Unit)
    (getUvrsByArea : List Coord → List Uvr)
    (uvrCache : List (String × Uvr)) (message_id : String)
    (body : UvrDeleteBody) :
    HandlerOutcome Unit × List (String × Uvr) × List GridCall :=
  match validate_control authHeader control_authorization with
  | Except.error e =>
    (HandlerOutcome.httpError e.status e.content, uvrCache, [])
  | Except.ok _ =>
    match dictGet? uvrCache message_id with
    | some cached =>
      match removeUvr cached with
      | Except.ok _ =>
        (HandlerOutcome.ok (), dictDel uvrCache message_id,
         [GridCall.removeUvr cached])
      | Except.error e =>
        (HandlerOutcome.httpError e.status (errStr e), uvrCache,
         [GridCall.removeUvr cached])
    | none =>
      match body.rings.head? with
      | none => (HandlerOutcome.crash, uvrCache, [])
      | some ring =>
        let area := ring.map (fun p => Coord.mk p.2 p.1)
        let gridUvrs :=
          (getUvrsByArea area).filter (fun u => u.message_id == message_id)
        match gridUvrs with
        | [] =>
          (HandlerOutcome.httpError 404 ("UVR " ++ message_id ++ " not found"),
           uvrCache, [GridCall.getOperatorsByArea area])
        | u :: _ =>
          match removeUvr u with
          | Except.ok _ =>
            (HandlerOutcome.ok (), uvrCache,
             [GridCall.getOperatorsByArea area, GridCall.removeUvr u])
          | Except.error e =>
            (HandlerOutcome.httpError e.status (errStr e), uvrCache,
             [GridCall.getOperatorsByArea area, GridCall.removeUvr u])

/-! ## Peer-facing operation endpoint (`operation_endpoint`) -/

/-- The full mutable state of the USS process, for frame-effect
statements about peer-facing handlers. -/
structure UssState where
  operations : List (String × Operation)
  uvrCache : List (String × Uvr)
  notification_logs : NotifLogs
  always_listen : List String
deriving DecidableEq, Repr

/-- `PUT /operations/<gufi>` (`operation_endpoint`, PUT branch): a
peer-facing, token-gated notification sink. After token validation (no
scope set required) the request body is recorded in the notification log
under the GUFI with the body's `state` field (default `'???'`) as the
action; nothing else is touched and no grid call is made. -/
def operation_endpoint_put (decode : String → JwtResult)
    (authHeader accessTokenHeader : Option String) (now : String)
    (st : UssState) (gufi : String) (body : Payload) :
    HandlerOutcome Unit × UssState × List GridCall :=
  match validate_access_token decode authHeader accessTokenHeader none with
  | Except.error e => (HandlerOutcome.httpError e.status e.content, st, [])
  | Except.ok _ =>
    let (logs2, _) :=
      log_request_body now gufi "operations" body
        (some (Payload.getD body "state" "???")) st.notification_logs
    (HandlerOutcome.ok (), { st with notification_logs := logs2 }, [])

/-! ## Derived notions used by the statements -/

/-- Total number of entries across all keys of the notification log. -/
def totalEntries (logs : NotifLogs) : Nat :=
  (logs.map (fun kv => kv.2.length)).sum

/-- A sequence of `_log_request_body` calls under one `key`, one per
body, in order. -/
def recordAll (now source key : String) (bodies : List Payload)
    (logs : NotifLogs) : NotifLogs :=
  bodies.foldl (fun l b => (log_request_body now key source b none l).1) logs

/-- Whether a trace event is the operator-entry republish of a grid
sync. -/
def isUpsertOperatorCall : GridCall → Bool
  | GridCall.upsertOperator _ => true
  | _ => false

/-- The response of `_validate_control` aborting on a missing
`Authorization` header. -/
def errMissingAuth {α : Type} : HandlerOutcome α :=
  HandlerOutcome.httpError 401 "Authorization header was not included in request"

/-- The response of `_validate_control` aborting on a mismatched
credential. -/
def errWrongAuth {α : Type} : HandlerOutcome α :=
  HandlerOutcome.httpError 403 "Not authorized to access this control endpoint"

/-! ## General lemmas about the dictionary model -/

theorem dictGet?_dictUpsert_self {α : Type} (d : List (String × α))
    (k : String) (v : α) : dictGet? (dictUpsert d k v) k = some v := by
  induction d with
  | nil => simp [dictUpsert, dictGet?]
  | cons a tl ih =>
    by_cases ha : a.1 == k
    · simp [dictUpsert, ha, dictGet?]
    · simp only [dictUpsert, ha, if_false]
      simpa [dictGet?, List.find?_cons, ha] using ih

theorem dictGet?_dictUpsert_ne {α : Type} (d : List (String × α))
    (k k2 : String) (v : α) (h : ¬ k2 = k) :
    dictGet? (dictUpsert d k v) k2 = dictGet? d k2 := by
  have hk : (k == k2) = false := by
    simp only [beq_eq_false_iff_ne, ne_eq]
    exact fun hc => h hc.symm
  induction d with
  | nil => simp [dictUpsert, dictGet?, hk]
  | cons a tl ih =>
    by_cases ha : a.1 == k
    · have hak : a.1 = k := by simpa using ha
      have ha2 : (a.1 == k2) = false := by
        simp only [hak, beq_eq_false_iff_ne, ne_eq]
        exact fun hc => h hc.symm
      simp [dictUpsert, ha, dictGet?, List.find?_cons, hk, ha2]
    · simp only [dictUpsert, ha, if_false]
      by_cases hb : a.1 == k2
      · simp [dictGet?, List.find?_cons, hb]
      · simpa [dictGet?, List.find?_cons, hb] using ih

theorem log_single_key_step (now source key : String) (b : Payload)
    (es : List NotificationEntry) :
    ∃ e, (log_request_body now key source b none [(key, es)]).1 =
      [(key, es ++ [e])] := by
  exact ⟨(log_request_body now key source b none [(key, es)]).2,
    by simp [log_request_body, dictGet?, dictUpsert, pyTruthy]⟩

theorem recordAll_single_key (now source key : String) :
    ∀ (bodies : List Payload) (es : List NotificationEntry),
      ∃ es2 : List NotificationEntry,
        recordAll now source key bodies [(key, es)] = [(key, es2)] ∧
        es2.length = es.length + bodies.length := by
  intro bodies
  induction bodies with
  | nil => intro es; exact ⟨es, rfl, by simp⟩
  | cons b bs ih =>
    intro es
    obtain ⟨e, he⟩ := log_single_key_step now source key b es
    have hstep : recordAll now source key (b :: bs) [(key, es)] =
        recordAll now source key bs
          ((log_request_body now key source b none [(key, es)]).1) := rfl
    rw [hstep, he]
    obtain ⟨es2, h1, h2⟩ := ih (es ++ [e])
    refine ⟨es2, h1, ?_⟩
    rw [h2]
    simp only [List.length_append, List.length_cons, List.length_nil]
    omega

theorem insertObservers_no_upsert_calls
    (insertObserver : String → Except HttpErr Unit) (cells : List String) :
    ∀ c ∈ (insertObservers insertObserver cells).2,
      isUpsertOperatorCall c = false := by
  induction cells with
  | nil => simp [insertObservers]
  | cons c rest ih =>
    cases h : insertObserver c with
    | error e => simp [insertObservers, h, isUpsertOperatorCall]
    | ok v =>
      rcases hrec : insertObservers insertObserver rest with ⟨r, t⟩
      simp only [insertObservers, h, hrec, List.mem_cons]
      rintro x (rfl | hx)
      · rfl
      · exact ih x (by rw [hrec]; exact hx)

/-! ## Claim theorems -/

/-- Claim C3: for every operation upsert whose grid sync fails, the
registry keeps the already-applied write (no rollback) and the request
fails with the grid's own status code and a message carrying the grid's
content; and in every case the sync republishes the full current
operation set exactly once per call. -/
theorem operation_upsert_sync (authHeader : Option String) (ctrl : String)
    (upsertOperator : List Operation → Except HttpErr Unit)
    (insertObserver : String → Except HttpErr Unit)
    (operations : List (String × Operation)) (always_listen : List String)
    (operation : Operation)
    (hctrl : validate_control authHeader ctrl = Except.ok ()) :
    ((clientOperationPut authHeader ctrl upsertOperator insertObserver
        operations always_listen operation).2.2.filter isUpsertOperatorCall =
      [GridCall.upsertOperator
        ((dictUpsert operations operation.gufi operation).map
          (fun kv => kv.2))]) ∧
    (∀ e,
      upsertOperator
          ((dictUpsert operations operation.gufi operation).map
            (fun kv => kv.2)) = Except.error e →
      (clientOperationPut authHeader ctrl upsertOperator insertObserver
          operations always_listen operation).1 =
        HandlerOutcome.httpError e.status
          ("Error updating InterUSS Platform Operator entry: " ++
            e.content) ∧
      (clientOperationPut authHeader ctrl upsertOperator insertObserver
          operations always_listen operation).2.1 =
        dictUpsert operations operation.gufi operation ∧
      (clientOperationPut authHeader ctrl upsertOperator insertObserver
          operations always_listen operation).2.2 =
        [GridCall.upsertOperator
          ((dictUpsert operations operation.gufi operation).map
            (fun kv => kv.2))]) := by
  constructor
  · cases hup : upsertOperator
        ((dictUpsert operations operation.gufi operation).map
          (fun kv => kv.2)) with
    | error e =>
      simp [clientOperationPut, hctrl, update_operations, hup,
        isUpsertOperatorCall]
    | ok v =>
      rcases hobs : insertObservers insertObserver always_listen with ⟨r, t⟩
      have hno := insertObservers_no_upsert_calls insertObserver always_listen
      rw [hobs] at hno
      cases r with
      | error e2 =>
        simp only [clientOperationPut, hctrl, update_operations, hup, hobs,
          List.filter_cons, isUpsertOperatorCall]
        simp only [if_true]
        rw [List.filter_eq_nil_iff.mpr (fun a ha => by simp [hno a ha])]
      | ok v2 =>
        simp only [clientOperationPut, hctrl, update_operations, hup, hobs,
          List.filter_cons, isUpsertOperatorCall]
        simp only [if_true]
        rw [List.filter_eq_nil_iff.mpr (fun a ha => by simp [hno a ha])]
  · intro e hup
    simp [clientOperationPut, hctrl, update_operations, hup]

/-- Witness for claim C3 at a concrete rejecting grid. -/
theorem operation_upsert_sync_witness :
    (clientOperationPut (some "s") "s" (fun _ => Except.error ⟨500, "boom"⟩)
        (fun _ => Except.ok ()) [] [] ⟨"g1", []⟩).1 =
      HandlerOutcome.httpError 500
        ("Error updating InterUSS Platform Operator entry: " ++ "boom") ∧
    (clientOperationPut (some "s") "s" (fun _ => Except.error ⟨500, "boom"⟩)
        (fun _ => Except.ok ()) [] [] ⟨"g1", []⟩).2.1 =
      dictUpsert [] "g1" ⟨"g1", []⟩ ∧
    (clientOperationPut (some "s") "s" (fun _ => Except.error ⟨500, "boom"⟩)
        (fun _ => Except.ok ()) [] [] ⟨"g1", []⟩).2.2 =
      [GridCall.upsertOperator
        ((dictUpsert [] "g1" (⟨"g1", []⟩ : Operation)).map (fun kv => kv.2))] :=
  (operation_upsert_sync (some "s") "s" (fun _ => Except.error ⟨500, "boom"⟩)
    (fun _ => Except.ok ()) [] [] ⟨"g1", []⟩ rfl).2 ⟨500, "boom"⟩ rfl

/-- Claim C4: access-token validation distinguishes: expired (signature
valid) → 401 with an expiry message; undecodable → 400, never 401;
decodable and unexpired → accepted regardless of the token's scopes when
the endpoint requires no scope set. -/
theorem access_token_taxonomy (decode : String → JwtResult)
    (authHeader accessTokenHeader : Option String) (token : String)
    (htok : extractToken authHeader accessTokenHeader = some token) :
    (decode token = JwtResult.expiredSignature →
      validate_access_token decode authHeader accessTokenHeader none =
        Except.error ⟨401, "Access token is invalid: token has expired."⟩) ∧
    (decode token = JwtResult.decodeError →
      validate_access_token decode authHeader accessTokenHeader none =
        Except.error
          ⟨400, "Access token is invalid: token cannot be decoded."⟩ ∧
      ∀ msg, validate_access_token decode authHeader accessTokenHeader none ≠
        Except.error ⟨401, msg⟩) ∧
    (∀ claims, decode token = JwtResult.ok claims →
      validate_access_token decode authHeader accessTokenHeader none =
        Except.ok ()) := by
  refine ⟨?_, ?_, ?_⟩
  · intro h
    simp [validate_access_token, htok, h]
  · intro h
    refine ⟨by simp [validate_access_token, htok, h], ?_⟩
    intro msg
    simp [validate_access_token, htok, h]
  · intro claims h
    simp [validate_access_token, htok, h]

/-- Witness for claim C4 at a concrete expired token. -/
theorem access_token_taxonomy_witness :
    (fun t => if t == "tok" then JwtResult.expiredSignature
              else JwtResult.ok ⟨["s1"]⟩) "tok" = JwtResult.expiredSignature ∧
    validate_access_token
        (fun t => if t == "tok" then JwtResult.expiredSignature
                  else JwtResult.ok ⟨["s1"]⟩)
        none (some "tok") none =
      Except.error ⟨401, "Access token is invalid: token has expired."⟩ :=
  ⟨by decide,
   (access_token_taxonomy
      (fun t => if t == "tok" then JwtResult.expiredSignature
                else JwtResult.ok ⟨["s1"]⟩)
      none (some "tok") "tok" rfl).1 (by decide)⟩

/-- Claim C6 counterexample: recording a payload with no `uss_name`
field stores `uss = '???'`, not `"unknown"` as the claim states. -/
theorem log_uss_default_counterexample :
    (log_request_body "2018-01-01T00:00:00" "k" "uvrs" [("foo", "bar")]
        none []).2.uss = "???" ∧
    ¬ (log_request_body "2018-01-01T00:00:00" "k" "uvrs" [("foo", "bar")]
        none []).2.uss = "unknown" := by
  constructor <;> decide

/-- Claim C6 amended: the stored entry's `uss` equals the payload's
`uss_name` field when present and the string `'???'` when absent. -/
theorem log_uss_field (now key source : String) (body : Payload)
    (action : Option String) (logs : NotifLogs) :
    (∀ v, Payload.get? body "uss_name" = some v →
      (log_request_body now key source body action logs).2.uss = v) ∧
    (Payload.get? body "uss_name" = none →
      (log_request_body now key source body action logs).2.uss = "???") := by
  constructor
  · intro v hv
    simp [log_request_body, Payload.getD, hv]
  · intro hv
    simp [log_request_body, Payload.getD, hv]

/-- Witness for claim C6 amended at a concrete payload carrying
`uss_name`. -/
theorem log_uss_field_witness :
    (log_request_body "t" "k" "uvrs" [("uss_name", "ussX")] none []).2.uss =
      "ussX" :=
  (log_uss_field "t" "k" "uvrs" [("uss_name", "ussX")] none []).1 "ussX"
    (by decide)

/-- Claim C7 counterexample: two records under one key, then clear — the
code reports 1 (the number of keys), not 2 (the number of entries). -/
theorem notifications_clear_counterexample :
    totalEntries (recordAll "t" "uvrs" "k" [[], []] []) = 2 ∧
    (del_notifications_delete (some "s") "s"
        (recordAll "t" "uvrs" "k" [[], []] [])).1 =
      HandlerOutcome.ok "Deleted 1 notification keys" ∧
    ¬ (del_notifications_delete (some "s") "s"
        (recordAll "t" "uvrs" "k" [[], []] [])).1 =
      HandlerOutcome.ok "Deleted 2 notification keys" := by
  refine ⟨by decide, by decide, by decide⟩

/-- Claim C7 amended: the clear operation empties the whole log and
reports the number of *keys* removed; after `N ≥ 1` records under a
single key (starting from an empty log, no other records) the log holds
`N` entries but clear reports exactly 1 and leaves the log empty. -/
theorem notifications_clear (authHeader : Option String) (ctrl : String)
    (logs : NotifLogs) (now source key : String) (b : Payload)
    (bodies : List Payload)
    (hctrl : validate_control authHeader ctrl = Except.ok ()) :
    ((del_notifications_delete authHeader ctrl logs).2 = [] ∧
     (del_notifications_delete authHeader ctrl logs).1 =
       HandlerOutcome.ok
         ("Deleted " ++ toString logs.length ++ " notification keys")) ∧
    (totalEntries (recordAll now source key (b :: bodies) []) =
       bodies.length + 1 ∧
     (del_notifications_delete authHeader ctrl
         (recordAll now source key (b :: bodies) [])).1 =
       HandlerOutcome.ok "Deleted 1 notification keys" ∧
     (del_notifications_delete authHeader ctrl
         (recordAll now source key (b :: bodies) [])).2 = []) := by
  have hfirst : recordAll now source key (b :: bodies) [] =
      recordAll now source key bodies
        [(key, [(log_request_body now key source b none []).2])] := by
    simp [recordAll, log_request_body, dictGet?, dictUpsert, pyTruthy]
  obtain ⟨es2, h1, h2⟩ :=
    recordAll_single_key now source key bodies
      [(log_request_body now key source b none []).2]
  refine ⟨⟨?_, ?_⟩, ?_, ?_, ?_⟩
  · simp [del_notifications_delete, hctrl]
  · simp [del_notifications_delete, hctrl]
  · rw [hfirst, h1]
    simp [totalEntries, h2]
    omega
  · rw [hfirst, h1]
    simp [del_notifications_delete, hctrl]
    rfl
  · rw [hfirst, h1]
    simp [del_notifications_delete, hctrl]

/-- Witness for claim C7 amended at a concrete single-record log. -/
theorem notifications_clear_witness :
    totalEntries (recordAll "t" "uvrs" "k" ([] :: []) []) = 0 + 1 ∧
    (del_notifications_delete (some "s") "s"
        (recordAll "t" "uvrs" "k" ([] :: []) [])).1 =
      HandlerOutcome.ok "Deleted 1 notification keys" ∧
    (del_notifications_delete (some "s") "s"
        (recordAll "t" "uvrs" "k" ([] :: []) [])).2 = [] :=
  (notifications_clear (some "s") "s" [] "t" "uvrs" "k" [] [] rfl).2

/-- Claim C2: UVR delete. Cache hit: the cached representation is handed
to the grid for withdrawal; the cache entry is dropped only on grid
success, and a grid failure propagates the grid's status and message with
the entry left in place. Cache miss: the grid is queried by the polygon
in the request body's geography, the returned UVRs are filtered to the
exact message id; the first match is withdrawn, and no match fails as
not-found. -/
theorem uvr_delete_behavior (authHeader : Option String) (ctrl : String)
    (removeUvr : Uvr → Except HttpErr Unit)
    (getUvrsByArea : List Coord → List Uvr)
    (uvrCache : List (String × Uvr)) (mid : String) (body : UvrDeleteBody)
    (hctrl : validate_control authHeader ctrl = Except.ok ()) :
    (∀ cached, dictGet? uvrCache mid = some cached →
      (removeUvr cached = Except.ok () →
        clientUvrDelete authHeader ctrl removeUvr getUvrsByArea uvrCache
            mid body =
          (HandlerOutcome.ok (), dictDel uvrCache mid,
           [GridCall.removeUvr cached])) ∧
      (∀ e, removeUvr cached = Except.error e →
        clientUvrDelete authHeader ctrl removeUvr getUvrsByArea uvrCache
            mid body =
          (HandlerOutcome.httpError e.status (errStr e), uvrCache,
           [GridCall.removeUvr cached]))) ∧
    (dictGet? uvrCache mid = none →
      ∀ ring rs, body.rings = ring :: rs →
        ((getUvrsByArea (ring.map (fun p => Coord.mk p.2 p.1))).filter
            (fun u => u.message_id == mid) = [] →
          clientUvrDelete authHeader ctrl removeUvr getUvrsByArea uvrCache
              mid body =
            (HandlerOutcome.httpError 404 ("UVR " ++ mid ++ " not found"),
             uvrCache,
             [GridCall.getOperatorsByArea
               (ring.map (fun p => Coord.mk p.2 p.1))])) ∧
        (∀ u us,
          (getUvrsByArea (ring.map (fun p => Coord.mk p.2 p.1))).filter
              (fun v => v.message_id == mid) = u :: us →
          u.message_id = mid ∧
          (removeUvr u = Except.ok () →
            clientUvrDelete authHeader ctrl removeUvr getUvrsByArea uvrCache
                mid body =
              (HandlerOutcome.ok (), uvrCache,
               [GridCall.getOperatorsByArea
                  (ring.map (fun p => Coord.mk p.2 p.1)),
                GridCall.removeUvr u])) ∧
          (∀ e, removeUvr u = Except.error e →
            clientUvrDelete authHeader ctrl removeUvr getUvrsByArea uvrCache
                mid body =
              (HandlerOutcome.httpError e.status (errStr e), uvrCache,
               [GridCall.getOperatorsByArea
                  (ring.map (fun p => Coord.mk p.2 p.1)),
                GridCall.removeUvr u])))) := by
  constructor
  · intro cached hcached
    constructor
    · intro hok
      simp [clientUvrDelete, hctrl, hcached, hok]
    · intro e herr
      simp [clientUvrDelete, hctrl, hcached, herr]
  · intro hmiss ring rs hrings
    constructor
    · intro hnone
      simp [clientUvrDelete, hctrl, hmiss, hrings, hnone]
    · intro u us hfilter
      have hmem : u ∈ (getUvrsByArea
          (ring.map (fun p => Coord.mk p.2 p.1))).filter
            (fun v => v.message_id == mid) := by
        rw [hfilter]; exact List.mem_cons_self u us
      have humid : u.message_id = mid := by
        have := (List.mem_filter.mp hmem).2
        simpa using this
      refine ⟨humid, ?_, ?_⟩
      · intro hok
        simp [clientUvrDelete, hctrl, hmiss, hrings, hfilter, hok]
      · intro e herr
        simp [clientUvrDelete, hctrl, hmiss, hrings, hfilter, herr]

/-- Witness for claim C2 at a concrete cache hit with a succeeding
grid. -/
theorem uvr_delete_behavior_witness :
    clientUvrDelete (some "s") "s" (fun _ => Except.ok ())
        (fun _ => []) [("m", ⟨"m", []⟩)] "m" ⟨[]⟩ =
      (HandlerOutcome.ok (), dictDel [("m", ⟨"m", []⟩)] "m",
       [GridCall.removeUvr ⟨"m", []⟩]) :=
  ((uvr_delete_behavior (some "s") "s" (fun _ => Except.ok ())
      (fun _ => []) [("m", ⟨"m", []⟩)] "m" ⟨[]⟩ rfl).1 ⟨"m", []⟩ rfl).1 rfl


/-- Claim C9: after a successful grid upsert the handler takes element 0
of the snapshot UVRs filtered to the message id with no emptiness guard:
when at least one matching UVR is in the snapshot the selection succeeds
(the first match), otherwise the handler crashes with an unhandled
indexing error rather than a structured failure. -/
theorem uvr_put_selection (authHeader : Option String) (ctrl : String)
    (upsertUvr : Payload → Except HttpErr GridSnapshot)
    (notifyPut : String → Nat × String) (uss_baseurl : String)
    (uvrCache : List (String × Uvr)) (mid : String) (reqUvr : Payload)
    (snapshot : GridSnapshot)
    (hctrl : validate_control authHeader ctrl = Except.ok ())
    (hup : upsertUvr reqUvr = Except.ok snapshot) :
    ((∃ u ∈ snapshot.uvrs, u.message_id = mid) →
      ∃ u, (snapshot.uvrs.filter (fun v => v.message_id == mid)).head? =
          some u ∧
        u.message_id = mid ∧
        ∃ attempts,
          (clientUvrPut authHeader ctrl upsertUvr notifyPut uss_baseurl
              uvrCache mid reqUvr).1 = HandlerOutcome.ok ⟨u, attempts⟩) ∧
    ((∀ u ∈ snapshot.uvrs, ¬ u.message_id = mid) →
      (clientUvrPut authHeader ctrl upsertUvr notifyPut uss_baseurl
          uvrCache mid reqUvr).1 = HandlerOutcome.crash) := by
  constructor
  · rintro ⟨u0, hu0, hid0⟩
    cases hf : snapshot.uvrs.filter (fun v => v.message_id == mid) with
    | nil =>
      exfalso
      have : u0 ∈ snapshot.uvrs.filter (fun v => v.message_id == mid) :=
        List.mem_filter.mpr ⟨hu0, by simp [hid0]⟩
      rw [hf] at this
      exact absurd this (List.not_mem_nil u0)
    | cons u us =>
      have hmem : u ∈ snapshot.uvrs.filter (fun v => v.message_id == mid) := by
        rw [hf]; exact List.mem_cons_self u us
      have humid : u.message_id = mid := by
        have := (List.mem_filter.mp hmem).2
        simpa using this
      refine ⟨u, by simp [hf], humid,
        (uvrNotifyTargets uss_baseurl u.message_id snapshot.operators).map
          (fun op =>
            (op, notifyPut (osPathJoin3 op.uss_baseurl "uvrs" u.message_id))),
        ?_⟩
      simp [clientUvrPut, hctrl, hup, hf]
  · intro hnone
    have hf : snapshot.uvrs.filter (fun v => v.message_id == mid) = [] :=
      List.filter_eq_nil_iff.mpr (fun u hu => by simp [hnone u hu])
    simp [clientUvrPut, hctrl, hup, hf]

/-- Witness for claim C9: a snapshot carrying the matching UVR. -/
theorem uvr_put_selection_witness :
    ∃ u, ((GridSnapshot.mk [] [⟨"m", []⟩]).uvrs.filter
        (fun v => v.message_id == "m")).head? = some u ∧
      u.message_id = "m" ∧
      ∃ attempts,
        (clientUvrPut (some "s") "s"
            (fun _ => Except.ok (GridSnapshot.mk [] [⟨"m", []⟩]))
            (fun _ => (204, "")) "http://self" [] "m" []).1 =
          HandlerOutcome.ok ⟨u, attempts⟩ :=
  (uvr_put_selection (some "s") "s"
    (fun _ => Except.ok (GridSnapshot.mk [] [⟨"m", []⟩]))
    (fun _ => (204, "")) "http://self" [] "m" []
    (GridSnapshot.mk [] [⟨"m", []⟩]) rfl rfl).1
    ⟨⟨"m", []⟩, by simp, rfl⟩


/-- Claim C10: for a peer-facing PUT to `/operations/<gufi>` with a valid
token, the only state change is appending one entry to the notification
log under that GUFI (with the payload's `state` as the action, when
present and nonempty); the operations registry, the UVR cache and the
always-listen list are unchanged and no grid call is made. -/
theorem peer_operation_put_frame (decode : String → JwtResult)
    (authHeader accessTokenHeader : Option String) (now : String)
    (st : UssState) (gufi : String) (body : Payload)
    (hok : validate_access_token decode authHeader accessTokenHeader none =
      Except.ok ()) :
    ∃ entry : NotificationEntry,
      operation_endpoint_put decode authHeader accessTokenHeader now st
          gufi body =
        (HandlerOutcome.ok (),
         { st with notification_logs :=
             (dictUpsert st.notification_logs gufi
               ((dictGet? st.notification_logs gufi).getD [] ++ [entry])) },
         []) ∧
      entry.content = body ∧
      entry.source = "operations" ∧
      (∀ s, Payload.get? body "state" = some s → ¬ s = "" →
        entry.action = some s) ∧
      (operation_endpoint_put decode authHeader accessTokenHeader now st
          gufi body).2.1.operations = st.operations ∧
      (operation_endpoint_put decode authHeader accessTokenHeader now st
          gufi body).2.1.uvrCache = st.uvrCache ∧
      (operation_endpoint_put decode authHeader accessTokenHeader now st
          gufi body).2.1.always_listen = st.always_listen ∧
      (operation_endpoint_put decode authHeader accessTokenHeader now st
          gufi body).2.2 = [] ∧
      dictGet? (operation_endpoint_put decode authHeader accessTokenHeader
          now st gufi body).2.1.notification_logs gufi =
        some ((dictGet? st.notification_logs gufi).getD [] ++ [entry]) ∧
      (∀ k, ¬ k = gufi →
        dictGet? (operation_endpoint_put decode authHeader accessTokenHeader
            now st gufi body).2.1.notification_logs k =
          dictGet? st.notification_logs k) := by
  refine ⟨(log_request_body now gufi "operations" body
    (some (Payload.getD body "state" "???")) st.notification_logs).2,
    ?_, ?_, ?_, ?_, ?_, ?_, ?_, ?_, ?_, ?_⟩
  · simp [operation_endpoint_put, hok, log_request_body]
  · rfl
  · rfl
  · intro s hs hne
    simp [log_request_body, pyTruthy, Payload.getD, hs, hne]
  · simp [operation_endpoint_put, hok]
  · simp [operation_endpoint_put, hok]
  · simp [operation_endpoint_put, hok]
  · simp [operation_endpoint_put, hok]
  · simp only [operation_endpoint_put, hok, log_request_body]
    exact dictGet?_dictUpsert_self _ _ _
  · intro k hk
    simp only [operation_endpoint_put, hok, log_request_body]
    exact dictGet?_dictUpsert_ne _ _ _ _ hk

/-- Witness for claim C10 at a concrete token and payload. -/
theorem peer_operation_put_frame_witness :
    ∃ entry : NotificationEntry,
      operation_endpoint_put (fun _ => JwtResult.ok ⟨["scope1"]⟩) none
          (some "tok") "t" ⟨[], [], [], []⟩ "g1" [("state", "Accepted")] =
        (HandlerOutcome.ok (),
         { (⟨[], [], [], []⟩ : UssState) with notification_logs :=
             (dictUpsert ([] : NotifLogs) "g1"
               ((dictGet? ([] : NotifLogs) "g1").getD [] ++ [entry])) },
         []) ∧
      entry.content = [("state", "Accepted")] ∧
      entry.source = "operations" ∧
      (∀ s, Payload.get? [("state", "Accepted")] "state" = some s →
        ¬ s = "" → entry.action = some s) ∧
      (operation_endpoint_put (fun _ => JwtResult.ok ⟨["scope1"]⟩) none
          (some "tok") "t" ⟨[], [], [], []⟩ "g1"
          [("state", "Accepted")]).2.1.operations = [] ∧
      (operation_endpoint_put (fun _ => JwtResult.ok ⟨["scope1"]⟩) none
          (some "tok") "t" ⟨[], [], [], []⟩ "g1"
          [("state", "Accepted")]).2.1.uvrCache = [] ∧
      (operation_endpoint_put (fun _ => JwtResult.ok ⟨["scope1"]⟩) none
          (some "tok") "t" ⟨[], [], [], []⟩ "g1"
          [("state", "Accepted")]).2.1.always_listen = [] ∧
      (operation_endpoint_put (fun _ => JwtResult.ok ⟨["scope1"]⟩) none
          (some "tok") "t" ⟨[], [], [], []⟩ "g1"
          [("state", "Accepted")]).2.2 = [] ∧
      dictGet? (operation_endpoint_put (fun _ => JwtResult.ok ⟨["scope1"]⟩)
          none (some "tok") "t" ⟨[], [], [], []⟩ "g1"
          [("state", "Accepted")]).2.1.notification_logs "g1" =
        some ((dictGet? ([] : NotifLogs) "g1").getD [] ++ [entry]) ∧
      (∀ k, ¬ k = "g1" →
        dictGet? (operation_endpoint_put (fun _ => JwtResult.ok ⟨["scope1"]⟩)
            none (some "tok") "t" ⟨[], [], [], []⟩ "g1"
            [("state", "Accepted")]).2.1.notification_logs k =
          dictGet? ([] : NotifLogs) k) :=
  peer_operation_put_frame (fun _ => JwtResult.ok ⟨["scope1"]⟩) none
    (some "tok") "t" ⟨[], [], [], []⟩ "g1" [("state", "Accepted")] rfl

/-- Claim C5 counterexample: the status query performs its action with no
credential at all — it does not reject the request as the claim
demands. -/
theorem control_gate_counterexample :
    status_endpoint none "secret" [("g1", ⟨"g1", []⟩)] "http://self" =
      HandlerOutcome.ok (["g1"], "http://self") ∧
    ¬ status_endpoint none "secret" [("g1", ⟨"g1", []⟩)] "http://self" =
      (errMissingAuth : HandlerOutcome (List String × String)) := by
  constructor <;> decide

/-- Claim C5 amended: the mutating control endpoints and the notification
log endpoints (always-listen PUT, bulk operator-entry DELETE, operation
PUT/DELETE, UVR PUT/DELETE, notification get-by-key, notification bulk
GET and DELETE) reject a missing `Authorization` header with 401 and a
wrong credential with 403, before any state change or grid call; but the
status query, always-listen GET, operation GET and UVR GET perform no
credential check at all — their outcome is independent of the header. -/
theorem control_gate_coverage (ctrl v : String) (hv : ¬ v = ctrl)
    (upsertOperator : List Operation → Except HttpErr Unit)
    (insertObserver : String → Except HttpErr Unit)
    (removeOperatorByCell : String → Nat × String)
    (upsertUvr : Payload → Except HttpErr GridSnapshot)
    (notifyPut : String → Nat × String)
    (removeUvr : Uvr → Except HttpErr Unit)
    (getUvrsByArea : List Coord → List Uvr)
    (base : String) (operations : List (String × Operation))
    (always_listen : List String) (cells : List String)
    (operation : Operation) (gufi : String)
    (uvrCache : List (String × Uvr)) (mid : String) (reqUvr : Payload)
    (body : UvrDeleteBody) (logs : NotifLogs) (key : String)
    (details excl : Bool) (filt : Option String) :
    (alwaysListenPut none ctrl upsertOperator insertObserver operations
        always_listen cells = (errMissingAuth, always_listen, []) ∧
     alwaysListenPut (some v) ctrl upsertOperator insertObserver operations
        always_listen cells = (errWrongAuth, always_listen, [])) ∧
    (operatorEntriesDelete none ctrl removeOperatorByCell cells =
        (errMissingAuth, []) ∧
     operatorEntriesDelete (some v) ctrl removeOperatorByCell cells =
        (errWrongAuth, [])) ∧
    (clientOperationPut none ctrl upsertOperator insertObserver operations
        always_listen operation = (errMissingAuth, operations, []) ∧
     clientOperationPut (some v) ctrl upsertOperator insertObserver
        operations always_listen operation =
          (errWrongAuth, operations, [])) ∧
    (clientOperationDelete none ctrl upsertOperator insertObserver
        operations always_listen gufi = (errMissingAuth, operations, []) ∧
     clientOperationDelete (some v) ctrl upsertOperator insertObserver
        operations always_listen gufi = (errWrongAuth, operations, [])) ∧
    (clientUvrPut none ctrl upsertUvr notifyPut base uvrCache mid reqUvr =
        (errMissingAuth, uvrCache, []) ∧
     clientUvrPut (some v) ctrl upsertUvr notifyPut base uvrCache mid
        reqUvr = (errWrongAuth, uvrCache, [])) ∧
    (clientUvrDelete none ctrl removeUvr getUvrsByArea uvrCache mid body =
        (errMissingAuth, uvrCache, []) ∧
     clientUvrDelete (some v) ctrl removeUvr getUvrsByArea uvrCache mid
        body = (errWrongAuth, uvrCache, [])) ∧
    (get_notifications none ctrl logs key = errMissingAuth ∧
     get_notifications (some v) ctrl logs key = errWrongAuth) ∧
    (get_notifications_bulk none ctrl logs details filt excl =
        errMissingAuth ∧
     get_notifications_bulk (some v) ctrl logs details filt excl =
        errWrongAuth) ∧
    (del_notifications_delete none ctrl logs = (errMissingAuth, logs) ∧
     del_notifications_delete (some v) ctrl logs = (errWrongAuth, logs)) ∧
    (∀ h1 h2 : Option String,
      status_endpoint h1 ctrl operations base =
        status_endpoint h2 ctrl operations base) ∧
    (∀ h1 h2 : Option String,
      alwaysListenGet h1 ctrl always_listen =
        alwaysListenGet h2 ctrl always_listen) ∧
    (∀ h1 h2 : Option String,
      clientOperationGet h1 ctrl operations gufi =
        clientOperationGet h2 ctrl operations gufi) ∧
    (∀ h1 h2 : Option String,
      clientUvrGet h1 ctrl uvrCache mid =
        clientUvrGet h2 ctrl uvrCache mid) := by
  have hvb : (v == ctrl) = false := by
    simp only [beq_eq_false_iff_ne, ne_eq]
    exact hv
  refine ⟨⟨?_, ?_⟩, ⟨?_, ?_⟩, ⟨?_, ?_⟩, ⟨?_, ?_⟩, ⟨?_, ?_⟩, ⟨?_, ?_⟩,
    ⟨?_, ?_⟩, ⟨?_, ?_⟩, ⟨?_, ?_⟩, ?_, ?_, ?_, ?_⟩ <;>
    first
    | (intro h1 h2; rfl)
    | simp [alwaysListenPut, operatorEntriesDelete, clientOperationPut,
        clientOperationDelete, clientUvrPut, clientUvrDelete,
        get_notifications, get_notifications_bulk, del_notifications_delete,
        validate_control, hvb, errMissingAuth, errWrongAuth]

/-- Witness for claim C5 amended at a concrete wrong credential. -/
theorem control_gate_coverage_witness :
    (alwaysListenPut none "s" (fun _ => Except.ok ())
        (fun _ => Except.ok ()) [] ["0/0/0"] ["1/2/3"] =
      (errMissingAuth, ["0/0/0"], []) ∧
     alwaysListenPut (some "x") "s" (fun _ => Except.ok ())
        (fun _ => Except.ok ()) [] ["0/0/0"] ["1/2/3"] =
      (errWrongAuth, ["0/0/0"], [])) ∧
    (operatorEntriesDelete none "s" (fun _ => (200, "")) ["1/2/3"] =
        (errMissingAuth, []) ∧
     operatorEntriesDelete (some "x") "s" (fun _ => (200, "")) ["1/2/3"] =
        (errWrongAuth, [])) ∧
    (clientOperationPut none "s" (fun _ => Except.ok ())
        (fun _ => Except.ok ()) [] [] ⟨"g1", []⟩ =
          (errMissingAuth, [], []) ∧
     clientOperationPut (some "x") "s" (fun _ => Except.ok ())
        (fun _ => Except.ok ()) [] [] ⟨"g1", []⟩ =
          (errWrongAuth, [], [])) ∧
    (clientOperationDelete none "s" (fun _ => Except.ok ())
        (fun _ => Except.ok ()) [] [] "g1" = (errMissingAuth, [], []) ∧
     clientOperationDelete (some "x") "s" (fun _ => Except.ok ())
        (fun _ => Except.ok ()) [] [] "g1" = (errWrongAuth, [], [])) ∧
    (clientUvrPut none "s" (fun _ => Except.ok ⟨[], []⟩)
        (fun _ => (204, "")) "http://self" [] "m" [] =
          (errMissingAuth, [], []) ∧
     clientUvrPut (some "x") "s" (fun _ => Except.ok ⟨[], []⟩)
        (fun _ => (204, "")) "http://self" [] "m" [] =
          (errWrongAuth, [], [])) ∧
    (clientUvrDelete none "s" (fun _ => Except.ok ()) (fun _ => []) [] "m"
        ⟨[]⟩ = (errMissingAuth, [], []) ∧
     clientUvrDelete (some "x") "s" (fun _ => Except.ok ()) (fun _ => [])
        [] "m" ⟨[]⟩ = (errWrongAuth, [], [])) ∧
    (get_notifications none "s" [] "k" = errMissingAuth ∧
     get_notifications (some "x") "s" [] "k" = errWrongAuth) ∧
    (get_notifications_bulk none "s" [] false none false =
        errMissingAuth ∧
     get_notifications_bulk (some "x") "s" [] false none false =
        errWrongAuth) ∧
    (del_notifications_delete none "s" [] = (errMissingAuth, []) ∧
     del_notifications_delete (some "x") "s" [] = (errWrongAuth, [])) ∧
    (∀ h1 h2 : Option String,
      status_endpoint h1 "s" [] "http://self" =
        status_endpoint h2 "s" [] "http://self") ∧
    (∀ h1 h2 : Option String,
      alwaysListenGet h1 "s" ["0/0/0"] =
        alwaysListenGet h2 "s" ["0/0/0"]) ∧
    (∀ h1 h2 : Option String,
      clientOperationGet h1 "s" [] "g1" =
        clientOperationGet h2 "s" [] "g1") ∧
    (∀ h1 h2 : Option String,
      clientUvrGet h1 "s" [] "m" = clientUvrGet h2 "s" [] "m") :=
  control_gate_coverage "s" "x" (by decide) (fun _ => Except.ok ())
    (fun _ => Except.ok ()) (fun _ => (200, "")) (fun _ => Except.ok ⟨[], []⟩)
    (fun _ => (204, "")) (fun _ => Except.ok ()) (fun _ => [])
    "http://self" [] ["0/0/0"] ["1/2/3"] ⟨"g1", []⟩ "g1" [] "m" [] ⟨[]⟩
    [] "k" false false none

theorem takeWhile_digits_append_slash (d rest : List Char)
    (hd : ∀ c ∈ d, c.isDigit) :
    (d ++ '/' :: rest).takeWhile (fun c => c.isDigit) = d ∧
    (d ++ '/' :: rest).dropWhile (fun c => c.isDigit) = '/' :: rest := by
  have hslash : ('/' : Char).isDigit = false := by decide
  induction d with
  | nil =>
    constructor
    · rw [List.nil_append, List.takeWhile_cons]
      simp [hslash]
    · rw [List.nil_append, List.dropWhile_cons]
      simp [hslash]
  | cons c cs ih =>
    have hc : c.isDigit := hd c (List.mem_cons_self c cs)
    have ihh := ih (fun x hx => hd x (List.mem_cons_of_mem c hx))
    constructor
    · rw [List.cons_append, List.takeWhile_cons, if_pos hc, ihh.1]
    · rw [List.cons_append, List.dropWhile_cons, if_pos hc, ihh.2]

theorem digitsSlash_append (d rest : List Char) (hne : ¬ d = [])
    (hd : ∀ c ∈ d, c.isDigit) :
    digitsSlash (d ++ '/' :: rest) = some rest := by
  obtain ⟨h1, h2⟩ := takeWhile_digits_append_slash d rest hd
  unfold digitsSlash
  rw [h1, h2]
  simp [hne]

theorem digitsSlash_some (cs r : List Char) (h : digitsSlash cs = some r) :
    ∃ d, cs = d ++ '/' :: r ∧ ¬ d = [] ∧ ∀ c ∈ d, c.isDigit := by
  unfold digitsSlash at h
  by_cases he : (cs.takeWhile (fun c => c.isDigit)).isEmpty
  · simp [he] at h
  · simp only [he, if_false] at h
    cases hdrop : cs.dropWhile (fun c => c.isDigit) with
    | nil => rw [hdrop] at h; simp at h
    | cons c tl =>
      rw [hdrop] at h
      have h2 : (if c = '/' then some tl else none) = some r := h
      by_cases hc : c = '/'
      · rw [if_pos hc] at h2
        simp only [Option.some.injEq] at h2
        subst h2
        subst hc
        refine ⟨cs.takeWhile (fun c => c.isDigit), ?_, ?_, ?_⟩
        · conv_lhs => rw [← List.takeWhile_append_dropWhile
            (fun c : Char => c.isDigit) cs]
          rw [hdrop]
        · simpa [List.isEmpty_iff] using he
        · intro x hx
          simpa using List.mem_takeWhile_imp hx
      · rw [if_neg hc] at h2
        exact absurd h2 (by simp)

theorem slippyCellMatch_iff (s : String) :
    slippyCellMatch s = true ↔
      ∃ d1 d2 d3 rest : List Char,
        s.data = d1 ++ '/' :: (d2 ++ '/' :: (d3 ++ rest)) ∧
        ¬ d1 = [] ∧ ¬ d2 = [] ∧ ¬ d3 = [] ∧
        (∀ c ∈ d1, c.isDigit) ∧ (∀ c ∈ d2, c.isDigit) ∧
        (∀ c ∈ d3, c.isDigit) := by
  constructor
  · intro h
    unfold slippyCellMatch at h
    cases h1 : digitsSlash s.data with
    | none => rw [h1] at h; simp at h
    | some r1 =>
      rw [h1] at h
      simp only [Option.some_bind] at h
      cases h2 : digitsSlash r1 with
      | none => rw [h2] at h; simp at h
      | some r2 =>
        rw [h2] at h
        simp only [Option.elim_some] at h
        obtain ⟨d1, hcs, hne1, hd1⟩ := digitsSlash_some _ _ h1
        obtain ⟨d2, hr1, hne2, hd2⟩ := digitsSlash_some _ _ h2
        have hne3 : ¬ r2.takeWhile (fun c => c.isDigit) = [] := by
          simpa [List.isEmpty_iff] using h
        refine ⟨d1, d2, r2.takeWhile (fun c => c.isDigit),
          r2.dropWhile (fun c => c.isDigit), ?_, hne1, hne2, hne3, hd1,
          hd2, ?_⟩
        · rw [hcs, hr1, List.takeWhile_append_dropWhile]
        · intro x hx
          simpa using List.mem_takeWhile_imp hx
  · rintro ⟨d1, d2, d3, rest, hs, hne1, hne2, hne3, hd1, hd2, hd3⟩
    unfold slippyCellMatch
    rw [hs, digitsSlash_append d1 _ hne1 hd1]
    simp only [Option.some_bind]
    rw [digitsSlash_append d2 _ hne2 hd2]
    simp only [Option.elim_some]
    cases d3 with
    | nil => exact absurd rfl hne3
    | cons c cs3 =>
      have hc : c.isDigit := hd3 c (List.mem_cons_self c cs3)
      rw [List.cons_append, List.takeWhile_cons, if_pos hc]
      simp

theorem operatorEntriesLoop_bad (removeOperatorByCell : String → Nat × String)
    (bad : String) (hbad : slippyCellMatch bad = false) :
    ∀ (good : List String) (rest : List String),
      (∀ c ∈ good, slippyCellMatch c = true) →
      operatorEntriesLoop removeOperatorByCell (good ++ bad :: rest) =
        (HandlerOutcome.httpError 400 ("Invalid slippy cell: " ++ bad),
         good.map GridCall.removeOperatorByCell) := by
  intro good
  induction good with
  | nil =>
    intro rest _
    simp [operatorEntriesLoop, hbad]
  | cons g gs ih =>
    intro rest h
    have hg : slippyCellMatch g = true := h g (List.mem_cons_self g gs)
    have hrec := ih rest (fun c hc => h c (List.mem_cons_of_mem g hc))
    simp [operatorEntriesLoop, hg, hrec]


/-- Claim C8 counterexample: the regex is unanchored at the end, so
`'1/2/3x'` is accepted by the always-listen PUT and grid calls are then
made for it — a string that does not have exactly the form
integer/integer/integer is accepted. -/
theorem slippy_cell_counterexample :
    slippyCellMatch "1/2/3x" = true ∧
    alwaysListenPut (some "s") "s" (fun _ => Except.ok ())
        (fun _ => Except.ok ()) [] [] ["1/2/3x"] =
      (HandlerOutcome.ok (), ["1/2/3x"],
       [GridCall.upsertOperator [], GridCall.insertObserver "1/2/3x"]) := by
  constructor
  · decide
  · rfl

/-- Claim C8 amended: a cell string is accepted iff it *begins with*
digits/digits/digits (trailing characters are not rejected, since the
pattern is unanchored at the end). For the always-listen PUT, any list
containing a non-matching cell is rejected with 400 before any grid call;
for the bulk operator-entry DELETE each cell is validated immediately
before its own grid call, so a later invalid cell is rejected only after
the earlier valid cells' grid calls were made. -/
theorem slippy_cell_validation (authHeader : Option String) (ctrl : String)
    (hctrl : validate_control authHeader ctrl = Except.ok ()) :
    (∀ s : String, slippyCellMatch s = true ↔
      ∃ d1 d2 d3 rest : List Char,
        s.data = d1 ++ '/' :: (d2 ++ '/' :: (d3 ++ rest)) ∧
        ¬ d1 = [] ∧ ¬ d2 = [] ∧ ¬ d3 = [] ∧
        (∀ c ∈ d1, c.isDigit) ∧ (∀ c ∈ d2, c.isDigit) ∧
        (∀ c ∈ d3, c.isDigit)) ∧
    (∀ (upsertOperator : List Operation → Except HttpErr Unit)
       (insertObserver : String → Except HttpErr Unit)
       (operations : List (String × Operation))
       (always_listen cells : List String) (bad : String),
      cells.find? (fun c => !slippyCellMatch c) = some bad →
      alwaysListenPut authHeader ctrl upsertOperator insertObserver
          operations always_listen cells =
        (HandlerOutcome.httpError 400 ("Invalid slippy cell: " ++ bad),
         always_listen, [])) ∧
    (∀ (removeOperatorByCell : String → Nat × String)
       (good : List String) (bad : String) (rest : List String),
      (∀ c ∈ good, slippyCellMatch c = true) →
      slippyCellMatch bad = false →
      operatorEntriesDelete authHeader ctrl removeOperatorByCell
          (good ++ bad :: rest) =
        (HandlerOutcome.httpError 400 ("Invalid slippy cell: " ++ bad),
         good.map GridCall.removeOperatorByCell)) := by
  refine ⟨slippyCellMatch_iff, ?_, ?_⟩
  · intro upsertOperator insertObserver operations always_listen cells bad
      hfind
    simp [alwaysListenPut, hctrl, hfind]
  · intro removeOperatorByCell good bad rest hgood hbad
    simp [operatorEntriesDelete, hctrl,
      operatorEntriesLoop_bad removeOperatorByCell bad hbad good rest hgood]

/-- Witness for claim C8 amended at concrete cell lists. -/
theorem slippy_cell_validation_witness :
    alwaysListenPut (some "s") "s" (fun _ => Except.ok ())
        (fun _ => Except.ok ()) [] ["0/0/0"] ["abc"] =
      (HandlerOutcome.httpError 400 ("Invalid slippy cell: " ++ "abc"),
       ["0/0/0"], []) ∧
    operatorEntriesDelete (some "s") "s" (fun _ => (200, "ok"))
        (["1/2/3"] ++ "bad" :: []) =
      (HandlerOutcome.httpError 400 ("Invalid slippy cell: " ++ "bad"),
       ["1/2/3"].map GridCall.removeOperatorByCell) :=
  ⟨(slippy_cell_validation (some "s") "s" rfl).2.1 (fun _ => Except.ok ())
      (fun _ => Except.ok ()) [] ["0/0/0"] ["abc"] "abc" (by decide),
   (slippy_cell_validation (some "s") "s" rfl).2.2 (fun _ => (200, "ok"))
      ["1/2/3"] "bad" [] (by decide) (by decide)⟩

theorem osPathJoin2_append (a b : String)
    (hb : strStartsWith b "/" = false) :
    ∃ x, osPathJoin2 a b = a ++ x := by
  unfold osPathJoin2
  simp only [hb, Bool.false_eq_true, if_false]
  by_cases h2 : (a == "" || strEndsWith a "/") = true
  · simp only [h2, if_true]
    exact ⟨b, rfl⟩
  · simp only [h2, if_false]
    exact ⟨"/" ++ b, by simp [String.append_assoc]⟩

theorem strIn_self_join (a mid : String)
    (hmid : strStartsWith mid "/" = false) :
    strIn a (osPathJoin3 a "uvrs" mid) = true := by
  have huvrs : strStartsWith "uvrs" "/" = false := by decide
  obtain ⟨x, hx⟩ := osPathJoin2_append a "uvrs" huvrs
  obtain ⟨y, hy⟩ := osPathJoin2_append (a ++ x) mid hmid
  unfold osPathJoin3
  rw [hx, hy, String.append_assoc]
  unfold strIn
  refine decide_eq_true ?_
  rw [String.data_append]
  exact (List.prefix_append a.data (x ++ y).data).isInfix

theorem mem_uvrNotifyTargets (base mid : String) (ops : List Operator)
    (op : Operator) :
    op ∈ uvrNotifyTargets base mid ops ↔
      (op ∈ ops ∧ op.announcement_level = "ALL" ∧
       strIn base (osPathJoin3 op.uss_baseurl "uvrs" mid) = false) := by
  simp only [uvrNotifyTargets, List.mem_filter, Bool.not_eq_true',
    beq_iff_eq, and_assoc]

/-- Claim C1 counterexample: with own base URL `http://a` and a single
`ALL`-level peer whose base URL `http://ab` merely *contains* the own
base URL as a substring, the code attempts zero notifications, while the
claim's set (ALL-level minus the participant with equal base URL) still
contains that peer. -/
theorem uvr_notify_set_counterexample :
    (clientUvrPut (some "s") "s"
        (fun _ => Except.ok
          ⟨[⟨"peer", "http://ab", "ALL"⟩], [⟨"m", []⟩]⟩)
        (fun _ => (204, "")) "http://a" [] "m" []).1 =
      HandlerOutcome.ok ⟨⟨"m", []⟩, []⟩ ∧
    uvrNotifySetClaim "http://a" [⟨"peer", "http://ab", "ALL"⟩] =
      [⟨"peer", "http://ab", "ALL"⟩] := by
  constructor
  · decide
  · decide

/-- Claim C1 amended: after a successful grid upsert and selection, the
peers to which a notification PUT is attempted are exactly the snapshot
participants with announcement level `ALL` whose constructed
notification URL does *not contain this participant's own base URL as a
substring*; the participant itself (equal base URL) is always excluded,
but other participants whose URL happens to contain the own base URL are
wrongly skipped as well. -/
theorem uvr_notify_set (authHeader : Option String) (ctrl : String)
    (upsertUvr : Payload → Except HttpErr GridSnapshot)
    (notifyPut : String → Nat × String) (uss_baseurl : String)
    (uvrCache : List (String × Uvr)) (mid : String) (reqUvr : Payload)
    (snapshot : GridSnapshot) (u : Uvr)
    (hctrl : validate_control authHeader ctrl = Except.ok ())
    (hup : upsertUvr reqUvr = Except.ok snapshot)
    (hsel : (snapshot.uvrs.filter (fun v => v.message_id == mid)).head? =
      some u)
    (hmid : strStartsWith u.message_id "/" = false) :
    (clientUvrPut authHeader ctrl upsertUvr notifyPut uss_baseurl uvrCache
        mid reqUvr).1 =
      HandlerOutcome.ok
        ⟨u, (uvrNotifyTargets uss_baseurl u.message_id
            snapshot.operators).map
          (fun op =>
            (op, notifyPut (osPathJoin3 op.uss_baseurl "uvrs"
              u.message_id)))⟩ ∧
    (∀ op, op ∈ uvrNotifyTargets uss_baseurl u.message_id
        snapshot.operators ↔
      (op ∈ snapshot.operators ∧ op.announcement_level = "ALL" ∧
       strIn uss_baseurl (osPathJoin3 op.uss_baseurl "uvrs" u.message_id) =
         false)) ∧
    (∀ op ∈ snapshot.operators, op.uss_baseurl = uss_baseurl →
      op ∉ uvrNotifyTargets uss_baseurl u.message_id snapshot.operators) := by
  refine ⟨?_, ?_, ?_⟩
  · cases hh : (snapshot.uvrs.filter (fun v => v.message_id == mid)).head? with
    | none => rw [hh] at hsel; exact absurd hsel (by simp)
    | some w =>
      rw [hh] at hsel
      simp only [Option.some.injEq] at hsel
      subst hsel
      simp [clientUvrPut, hctrl, hup, hh]
  · intro op
    exact mem_uvrNotifyTargets uss_baseurl u.message_id snapshot.operators op
  · intro op _ heq hmem
    have hc := (mem_uvrNotifyTargets uss_baseurl u.message_id
      snapshot.operators op).mp hmem
    have hself : strIn uss_baseurl
        (osPathJoin3 op.uss_baseurl "uvrs" u.message_id) = true := by
      rw [heq]
      exact strIn_self_join uss_baseurl u.message_id hmid
    rw [hself] at hc
    exact absurd hc.2.2 (by simp)

/-- Witness for claim C1 amended: a snapshot with two distinct `ALL`
peers, one `RESTRICTED` peer and the participant itself (`ALL`, equal
base URL) yields exactly the two peers as notification targets. -/
theorem uvr_notify_set_witness :
    ((clientUvrPut (some "s") "s"
        (fun _ => Except.ok
          ⟨[⟨"B", "http://b.example", "ALL"⟩,
            ⟨"R", "http://r.example", "RESTRICTED"⟩,
            ⟨"self", "http://self.example", "ALL"⟩,
            ⟨"C", "http://c.example", "ALL"⟩], [⟨"m1", []⟩]⟩)
        (fun _ => (204, "")) "http://self.example" [] "m1" []).1 =
      HandlerOutcome.ok
        ⟨⟨"m1", []⟩, (uvrNotifyTargets "http://self.example" "m1"
            [⟨"B", "http://b.example", "ALL"⟩,
             ⟨"R", "http://r.example", "RESTRICTED"⟩,
             ⟨"self", "http://self.example", "ALL"⟩,
             ⟨"C", "http://c.example", "ALL"⟩]).map
          (fun op =>
            (op, (fun _ => ((204 : Nat), ""))
              (osPathJoin3 op.uss_baseurl "uvrs" "m1")))⟩) ∧
    uvrNotifyTargets "http://self.example" "m1"
        [⟨"B", "http://b.example", "ALL"⟩,
         ⟨"R", "http://r.example", "RESTRICTED"⟩,
         ⟨"self", "http://self.example", "ALL"⟩,
         ⟨"C", "http://c.example", "ALL"⟩] =
      [⟨"B", "http://b.example", "ALL"⟩, ⟨"C", "http://c.example", "ALL"⟩] :=
  ⟨(uvr_notify_set (some "s") "s"
      (fun _ => Except.ok
        ⟨[⟨"B", "http://b.example", "ALL"⟩,
          ⟨"R", "http://r.example", "RESTRICTED"⟩,
          ⟨"self", "http://self.example", "ALL"⟩,
          ⟨"C", "http://c.example", "ALL"⟩], [⟨"m1", []⟩]⟩)
      (fun _ => (204, "")) "http://self.example" [] "m1" []
      ⟨[⟨"B", "http://b.example", "ALL"⟩,
        ⟨"R", "http://r.example", "RESTRICTED"⟩,
        ⟨"self", "http://self.example", "ALL"⟩,
        ⟨"C", "http://c.example", "ALL"⟩], [⟨"m1", []⟩]⟩
      ⟨"m1", []⟩ rfl rfl (by decide) (by decide)).1,
   by decide⟩

end MiniUss
